import Mathlib

set_option maxRecDepth 40000

/-!
Verification of the ddgs-mcp-wrapper request pipeline (src/server.py).

The definitions below are a shallow embedding of the request-normalization,
dispatch and result-formatting code of src/server.py.  Python strings are
Lean strings, Python dicts of provider results are association lists over a
small dynamic value type, fallible Python code is embedded with Except, and
the module-level client cache is explicit state passing.
-/

/- ------------------------------------------------------------------ -/
/- Python string primitives                                           -/
/- ------------------------------------------------------------------ -/

/-- Characters treated as whitespace by the Python str.strip method with no
argument, the full CPython set: tab through carriage return (codes 9-13),
the separator controls 28-31, space (32), next line (133), no-break space
(160), ogham space mark (5760), the en-quad through hair-space range
(8192-8202), line separator (8232), paragraph separator (8233), narrow
no-break space (8239), medium mathematical space (8287) and ideographic
space (12288). -/
def pyIsSpace (c : Char) : Bool :=
  let n := c.toNat
  (Nat.ble 9 n && Nat.ble n 13) || (Nat.ble 28 n && Nat.ble n 31) ||
  n == 32 || n == 133 || n == 160 || n == 5760 ||
  (Nat.ble 8192 n && Nat.ble n 8202) || n == 8232 || n == 8233 ||
  n == 8239 || n == 8287 || n == 12288

/-- Quote characters stripped by the backend cleanup on line 315 of
src/server.py: the single-quote character (code 39) and the double-quote
character (code 34). -/
def isQuoteChar (c : Char) : Bool :=
  c == Char.ofNat 39 || c == Char.ofNat 34

/-- Remove the longest run of characters satisfying p from both ends of a
list, as the Python str.strip method does with a character set. -/
def stripEnds (p : Char → Bool) (l : List Char) : List Char :=
  ((l.dropWhile p).reverse.dropWhile p).reverse

/-- The Python str.strip method with no argument (whitespace at both ends). -/
def pyStrip (s : String) : String :=
  String.mk (stripEnds pyIsSpace s.toList)

/-- The Python str.strip method applied to the quote character set, as on
line 315 of src/server.py. -/
def pyStripQuotes (s : String) : String :=
  String.mk (stripEnds isQuoteChar s.toList)

/-- The Python str.startswith method. -/
def pyStartsWith (s pre : String) : Bool :=
  pre.toList.isPrefixOf s.toList

/-- The string containing only the single-quote character, used to build
concrete quoted test inputs. -/
def squote : String := String.mk [Char.ofNat 39]

/- ------------------------------------------------------------------ -/
/- Dynamic values of provider result dicts                            -/
/- ------------------------------------------------------------------ -/

/-- A dynamic Python value as it appears in a provider result dict: a
string, the value None, or an integer (integers appear, for example, as
image width and height). -/
inductive PyVal where
  | str (s : String)
  | none_
  | int (n : Int)
deriving DecidableEq

/-- Rendering of a PyVal inside a Python f-string: the str builtin. -/
def pyStr : PyVal → String
  | PyVal.str s => s
  | PyVal.none_ => "None"
  | PyVal.int n => toString n

/-- A provider result record, modelled as an association list from field
name to dynamic value, looked up with dict.get semantics. -/
abbrev SearchResult := List (String × PyVal)

/-- The Python dict.get method with a default: the default is used only
when the key is absent, never when the stored value is None. -/
def pyGet (r : SearchResult) (k : String) (d : PyVal) : PyVal :=
  match r.find? (fun kv => kv.1 == k) with
  | some kv => kv.2
  | none => d

/-- True when every field present in the record holds a string value. -/
def allStrFields (r : SearchResult) : Bool :=
  r.all fun kv =>
    match kv.2 with
    | PyVal.str _ => true
    | _ => false

/-- True when an embedded Python computation completed without raising. -/
def exceptOkB {α β : Type} : Except α β → Bool
  | Except.ok _ => true
  | Except.error _ => false

/- ------------------------------------------------------------------ -/
/- Result formatting (one function per tool kind)                     -/
/- ------------------------------------------------------------------ -/

/-- The URL rewrite of handle_text_search, src/server.py lines 358-360:
a URL is rewritten only when it is truthy, different from the N/A
placeholder and lacks an http or https scheme; a URL starting with two
slashes gets the https scheme prefixed, any other such URL gets https and
two slashes prefixed. -/
def normUrl (u : String) : String :=
  if u != "" && u != "N/A" &&
      !(pyStartsWith u "http://" || pyStartsWith u "https://") then
    if !(pyStartsWith u "//") then "https://" ++ u else "https:" ++ u
  else u

/-- The full url computation of handle_text_search lines 358-360 on the
dynamic value read from the href field.  None and the integer 0 are falsy,
so the guard short-circuits and the value is left as is; a truthy integer
reaches the startswith attribute access, which raises in Python. -/
def textUrlValue : PyVal → Except String PyVal
  | PyVal.str s => Except.ok (PyVal.str (normUrl s))
  | PyVal.none_ => Except.ok PyVal.none_
  | PyVal.int n =>
      if n == 0 then Except.ok (PyVal.int 0)
      else Except.error "AttributeError: int object has no attribute startswith"

/-- One numbered entry of the text search response, src/server.py lines
356-366.  The url is computed before the f-string is built, exactly as in
the source, so a failure there aborts the entry. -/
def formatTextEntry (i : Nat) (r : SearchResult) : Except String String :=
  match textUrlValue (pyGet r "href" (PyVal.str "N/A")) with
  | Except.error e => Except.error e
  | Except.ok url =>
      Except.ok (toString i ++ ". " ++ pyStr (pyGet r "title" (PyVal.str "No title")) ++
        "\n   URL: " ++ pyStr url ++
        "\n   " ++ pyStr (pyGet r "body" (PyVal.str "No description")) ++ "\n")

/-- The joined entry block of the text search response, lines 355-366 and
the join on line 370. -/
def formatTextResults (rs : List SearchResult) : Except String String :=
  match rs.enum.mapM (fun p => formatTextEntry (p.1 + 1) p.2) with
  | Except.ok es => Except.ok (String.intercalate "\n" es)
  | Except.error e => Except.error e

/-- One numbered entry of the image search response, src/server.py lines
415-422. -/
def formatImageEntry (i : Nat) (r : SearchResult) : String :=
  toString i ++ ". **" ++ pyStr (pyGet r "title" (PyVal.str "No title")) ++ "**" ++
  "\n   Image: " ++ pyStr (pyGet r "image" (PyVal.str "N/A")) ++
  "\n   Thumbnail: " ++ pyStr (pyGet r "thumbnail" (PyVal.str "N/A")) ++
  "\n   Source: " ++ pyStr (pyGet r "url" (PyVal.str "N/A")) ++
  "\n   Dimensions: " ++ pyStr (pyGet r "width" (PyVal.str "?")) ++ "x" ++
  pyStr (pyGet r "height" (PyVal.str "?")) ++ "\n"

/-- The Python slice of the first 200 characters applied to a dynamic
value, as on line 466 of src/server.py: slicing is only defined on the
string case and raises on None and on integers. -/
def pySlice200 : PyVal → Except String String
  | PyVal.str s => Except.ok (s.take 200)
  | PyVal.none_ => Except.error "TypeError: NoneType object is not subscriptable"
  | PyVal.int _ => Except.error "TypeError: int object is not subscriptable"

/-- One numbered entry of the video search response, src/server.py lines
459-467.  The description field is sliced to 200 characters before the
ellipsis is appended, which raises when the stored value is None. -/
def formatVideoEntry (i : Nat) (r : SearchResult) : Except String String :=
  match pySlice200 (pyGet r "description" (PyVal.str "No description")) with
  | Except.error e => Except.error e
  | Except.ok desc =>
      Except.ok (toString i ++ ". **" ++ pyStr (pyGet r "title" (PyVal.str "No title")) ++ "**" ++
        "\n   URL: " ++ pyStr (pyGet r "content" (PyVal.str "N/A")) ++
        "\n   Duration: " ++ pyStr (pyGet r "duration" (PyVal.str "N/A")) ++
        "\n   Publisher: " ++ pyStr (pyGet r "publisher" (PyVal.str "N/A")) ++
        "\n   Published: " ++ pyStr (pyGet r "published" (PyVal.str "N/A")) ++
        "\n   Description: " ++ desc ++ "...\n")

/-- The joined entry block of the video search response. -/
def formatVideoResults (rs : List SearchResult) : Except String String :=
  match rs.enum.mapM (fun p => formatVideoEntry (p.1 + 1) p.2) with
  | Except.ok es => Except.ok (String.intercalate "\n" es)
  | Except.error e => Except.error e

/-- One numbered entry of the news search response, src/server.py lines
500-507. -/
def formatNewsEntry (i : Nat) (r : SearchResult) : String :=
  toString i ++ ". **" ++ pyStr (pyGet r "title" (PyVal.str "No title")) ++ "**" ++
  "\n   Source: " ++ pyStr (pyGet r "source" (PyVal.str "N/A")) ++
  "\n   Date: " ++ pyStr (pyGet r "date" (PyVal.str "N/A")) ++
  "\n   URL: " ++ pyStr (pyGet r "url" (PyVal.str "N/A")) ++
  "\n   " ++ pyStr (pyGet r "body" (PyVal.str "No description")) ++ "\n"

/-- One numbered entry of the book search response, src/server.py lines
532-539. -/
def formatBookEntry (i : Nat) (r : SearchResult) : String :=
  toString i ++ ". **" ++ pyStr (pyGet r "title" (PyVal.str "No title")) ++ "**" ++
  "\n   Author: " ++ pyStr (pyGet r "author" (PyVal.str "N/A")) ++
  "\n   Publisher: " ++ pyStr (pyGet r "publisher" (PyVal.str "N/A")) ++
  "\n   Info: " ++ pyStr (pyGet r "info" (PyVal.str "N/A")) ++
  "\n   URL: " ++ pyStr (pyGet r "url" (PyVal.str "N/A")) ++ "\n"

/- ------------------------------------------------------------------ -/
/- Handler responses from a provider outcome                          -/
/- ------------------------------------------------------------------ -/

/-- The outcome of the blocking provider call: a list of result records,
or a raised exception carrying a message. -/
inductive SearchOutcome where
  | ok (rs : List SearchResult)
  | err (msg : String)
deriving DecidableEq

/-- The response text of handle_text_search, src/server.py lines 333-379,
from the provider outcome on: a provider exception is caught by the inner
try and rendered with the Search failed prefix; an empty result list gives
the literal no-results message; otherwise the formatted block is rendered,
and a formatting exception is caught by the outer try with the Search
error prefix. -/
def textSearchRespond : SearchOutcome → String
  | SearchOutcome.err e =>
      "Search failed: " ++ e ++ "\nTry a simpler query or different parameters."
  | SearchOutcome.ok rs =>
      if rs.isEmpty then "No results found."
      else
        match formatTextResults rs with
        | Except.ok body => "Found " ++ toString rs.length ++ " results:\n\n" ++ body
        | Except.error e =>
            "Search error: " ++ e ++ "\nPlease try again with different parameters."

/-- The response text of handle_image_search, src/server.py lines 397-427.
The handler has no try block of its own, so a provider exception escapes
to handle_call_tool and is rendered there with the Error executing search
prefix (lines 290-297). -/
def imageSearchRespond : SearchOutcome → String
  | SearchOutcome.err e => "Error executing search: " ++ e
  | SearchOutcome.ok rs =>
      if rs.isEmpty then "No images found."
      else "Found " ++ toString rs.length ++ " images:\n\n" ++
        String.intercalate "\n" (rs.enum.map fun p => formatImageEntry (p.1 + 1) p.2)

/-- The response text of handle_video_search, src/server.py lines 443-472.
Both a provider exception and a formatting exception escape to
handle_call_tool and are rendered with the Error executing search
prefix. -/
def videoSearchRespond : SearchOutcome → String
  | SearchOutcome.err e => "Error executing search: " ++ e
  | SearchOutcome.ok rs =>
      if rs.isEmpty then "No videos found."
      else
        match formatVideoResults rs with
        | Except.ok body => "Found " ++ toString rs.length ++ " videos:\n\n" ++ body
        | Except.error e => "Error executing search: " ++ e

/-- The response text of handle_news_search, src/server.py lines 486-512. -/
def newsSearchRespond : SearchOutcome → String
  | SearchOutcome.err e => "Error executing search: " ++ e
  | SearchOutcome.ok rs =>
      if rs.isEmpty then "No news found."
      else "Found " ++ toString rs.length ++ " news articles:\n\n" ++
        String.intercalate "\n" (rs.enum.map fun p => formatNewsEntry (p.1 + 1) p.2)

/-- The response text of handle_book_search, src/server.py lines 522-544. -/
def bookSearchRespond : SearchOutcome → String
  | SearchOutcome.err e => "Error executing search: " ++ e
  | SearchOutcome.ok rs =>
      if rs.isEmpty then "No books found."
      else "Found " ++ toString rs.length ++ " books:\n\n" ++
        String.intercalate "\n" (rs.enum.map fun p => formatBookEntry (p.1 + 1) p.2)

/- ------------------------------------------------------------------ -/
/- Argument normalization of the text search handler                  -/
/- ------------------------------------------------------------------ -/

/-- The backend cleanup of handle_text_search, src/server.py lines
313-319: a truthy backend is whitespace-trimmed and then quote-stripped;
an empty or auto backend is replaced by the fixed concrete default
duckduckgo.  The none case models a JSON null passed explicitly for the
backend key; an absent key yields the dict.get default auto. -/
def textBackendNormalize : Option String → String
  | none => "duckduckgo"
  | some s =>
      let b := if s == "" then s else pyStripQuotes (pyStrip s)
      if b == "" || b == "auto" then "duckduckgo" else b

/-- The proxy cleanup of handle_text_search, src/server.py lines 323-327:
the proxy is used only when it is a truthy string whose trimmed form is
nonempty, and it is used in trimmed form; otherwise it is absent. -/
def normalizeProxy : Option String → Option String
  | none => none
  | some p => if p != "" && pyStrip p != "" then some (pyStrip p) else none

/-- The backend argument of handle_news_search, src/server.py lines 482
and 493: it is read with the dict.get default auto and passed to the
provider news operation unchanged, with no cleanup and no resolution. -/
def newsBackendSent (backend : Option String) : Option String := backend

/-- The typed text search request produced by the argument-reading and
cleanup code of handle_text_search, src/server.py lines 303-327. -/
structure TextRequest where
  query : String
  region : String
  safesearch : String
  timelimit : Option String
  max_results : Int
  backend : String
  proxy : Option String
deriving DecidableEq

/-- The argument normalization of handle_text_search, src/server.py lines
303-327: query, region, safesearch, timelimit and max_results are read
with their dict.get defaults and kept unchanged; the backend is cleaned
and auto-resolved; the proxy is trimmed or dropped. -/
def normalizeText (query region safesearch : String) (timelimit : Option String)
    (max_results : Int) (backend proxy : Option String) : TextRequest :=
  ⟨query, region, safesearch, timelimit, max_results,
    textBackendNormalize backend, normalizeProxy proxy⟩

/-- Feeding an already-normalized request through the normalization again,
field by field. -/
def renormalizeText (r : TextRequest) : TextRequest :=
  normalizeText r.query r.region r.safesearch r.timelimit r.max_results
    (some r.backend) r.proxy

/- ------------------------------------------------------------------ -/
/- Provider dispatch of the text search handler                       -/
/- ------------------------------------------------------------------ -/

/-- The lower bound declared for max_results in the ddgs_text_search
input schema, src/server.py line 96. -/
def textSearchMaxResultsMinimum : Int := 1

/-- The upper bound declared for max_results in the ddgs_text_search
input schema, src/server.py line 97. -/
def textSearchMaxResultsMaximum : Int := 100

/-- The keyword arguments of the ddgs.text provider call, src/server.py
lines 334-343. -/
structure TextProviderCall where
  query : String
  region : String
  safesearch : String
  timelimit : Option String
  max_results : Int
  page : Int
  backend : String
deriving DecidableEq

/-- What the text search handler does with a request before results come
back: either it invokes the provider with concrete arguments, or it
reports a validation error naming a field.  The source contains no code
path producing the second alternative; the constructor exists so the
specified behavior is expressible. -/
inductive TextHandlerAction where
  | providerCall (c : TextProviderCall)
  | validationError (field : String)
deriving DecidableEq

/-- The argument handling of handle_text_search, src/server.py lines
300-343, up to the provider call: the arguments are read and normalized
and ddgs.text is invoked with max_results passed through unchanged and
page fixed to 1.  No range check of max_results exists in the handler, so
a validation error is never produced. -/
def handle_text_search (query region safesearch : String)
    (timelimit : Option String) (max_results : Int)
    (backend proxy : Option String) : TextHandlerAction :=
  let r := normalizeText query region safesearch timelimit max_results backend proxy
  TextHandlerAction.providerCall
    ⟨r.query, r.region, r.safesearch, r.timelimit, r.max_results, 1, r.backend⟩

/- ------------------------------------------------------------------ -/
/- Provider client construction and caching                           -/
/- ------------------------------------------------------------------ -/

/-- A DDGS provider client as constructed in src/server.py: the proxy,
timeout and TLS-verification arguments of the constructor, plus a
creation counter cid distinguishing separately constructed clients. -/
structure DDGSClient where
  proxy : Option String
  timeout : Nat
  verify : Bool
  cid : Nat
deriving DecidableEq

/-- The mutable module state of src/server.py: the ddgs_instance global
of line 35, plus the creation counter backing client identity. -/
structure ServerState where
  ddgs_instance : Option DDGSClient
  nextId : Nat
deriving DecidableEq

/-- The module state at import time: no cached client (line 35). -/
def initState : ServerState := ⟨none, 0⟩

/-- Construction of a DDGS client (the DDGS constructor calls on lines 42
and 330): a fresh client with the given proxy, the given timeout and TLS
verification on. -/
def mkDDGS (proxy : Option String) (timeout : Nat) (s : ServerState) :
    DDGSClient × ServerState :=
  (⟨proxy, timeout, true, s.nextId⟩, ⟨s.ddgs_instance, s.nextId + 1⟩)

/-- Truthiness of the proxy argument in the Python condition on line 41:
None and the empty string are falsy. -/
def proxyTruthy : Option String → Bool
  | none => false
  | some p => p != ""

/-- The get_ddgs_instance function, src/server.py lines 38-43: when the
cached instance is None or the proxy argument is truthy, a new client is
built and stored in the module global; otherwise the cached client is
returned.  Every call site in the source passes no arguments, so the
proxy is always None there. -/
def get_ddgs_instance (proxy : Option String) (timeout : Nat)
    (s : ServerState) : DDGSClient × ServerState :=
  match s.ddgs_instance, proxyTruthy proxy with
  | some c, false => (c, s)
  | some _, true =>
      let p := mkDDGS proxy timeout s
      (p.1, ⟨some p.1, p.2.nextId⟩)
  | none, _ =>
      let p := mkDDGS proxy timeout s
      (p.1, ⟨some p.1, p.2.nextId⟩)

/-- The client used by one text search request, src/server.py lines
323-330: the proxy is normalized and a fresh DDGS client is constructed
for this call only; the module cache is not read and not written. -/
def textSearchClient (proxy : Option String) (s : ServerState) :
    DDGSClient × ServerState :=
  mkDDGS (normalizeProxy proxy) 10 s

/-- Well-formedness of the module state: any cached client was created
before the current value of the creation counter. -/
def WFState (s : ServerState) : Prop :=
  ∀ c, s.ddgs_instance = some c → c.cid < s.nextId

/- ------------------------------------------------------------------ -/
/- Tool registry and dispatch                                         -/
/- ------------------------------------------------------------------ -/

/-- The five tool kinds of the registry. -/
inductive ToolKind where
  | text
  | image
  | video
  | news
  | book
deriving DecidableEq

/-- The tool names declared by handle_list_tools, src/server.py lines
49-271, in declaration order. -/
def toolNames : List String :=
  ["ddgs_text_search", "ddgs_image_search", "ddgs_video_search",
   "ddgs_news_search", "ddgs_book_search"]

/-- The observable result of one handle_call_tool invocation: the list of
text payloads of the response, and which handler the invocation was
delegated to (none when the name was unknown, in which case no argument
normalization and no provider operation happens). -/
structure CallToolResult where
  response : List String
  delegatedTo : Option ToolKind
deriving DecidableEq

/-- The dispatch of handle_call_tool, src/server.py lines 274-297: the
name is compared against the five registered names in order and the
matching handler produces the response from the provider outcome; any
other name raises ValueError, which the except clause of the same
function renders as a single text payload with the Unknown tool
message. -/
def handle_call_tool (name : String) (o : SearchOutcome) : CallToolResult :=
  if name == "ddgs_text_search" then ⟨[textSearchRespond o], some ToolKind.text⟩
  else if name == "ddgs_image_search" then ⟨[imageSearchRespond o], some ToolKind.image⟩
  else if name == "ddgs_video_search" then ⟨[videoSearchRespond o], some ToolKind.video⟩
  else if name == "ddgs_news_search" then ⟨[newsSearchRespond o], some ToolKind.news⟩
  else if name == "ddgs_book_search" then ⟨[bookSearchRespond o], some ToolKind.book⟩
  else ⟨["Error executing search: Unknown tool: " ++ name], none⟩

/- ------------------------------------------------------------------ -/
/- Execution context of the blocking provider call                    -/
/- ------------------------------------------------------------------ -/

/-- Where a blocking call runs: on a worker thread, or directly on the
event loop that accepts invocations. -/
inductive ExecContext where
  | workerThread
  | eventLoop
deriving DecidableEq

/-- The execution context of the blocking provider call of each handler,
read off the source: handle_text_search wraps ddgs.text in
asyncio.to_thread (line 334), so it runs on a worker thread; the image
(line 398), video (line 444), news (line 487) and book (line 523)
handlers call the provider method directly inside the async handler, so
the call runs on the event loop. -/
def providerCallContext : ToolKind → ExecContext
  | ToolKind.text => ExecContext.workerThread
  | ToolKind.image => ExecContext.eventLoop
  | ToolKind.video => ExecContext.eventLoop
  | ToolKind.news => ExecContext.eventLoop
  | ToolKind.book => ExecContext.eventLoop

/- ------------------------------------------------------------------ -/
/- Helper lemmas                                                      -/
/- ------------------------------------------------------------------ -/

lemma dropWhile_head?_false (p : Char → Bool) (l : List Char) (a : Char)
    (h : (l.dropWhile p).head? = some a) : p a = false := by
  induction l with
  | nil => simp [List.dropWhile] at h
  | cons b t ih =>
    rw [List.dropWhile_cons] at h
    by_cases hb : p b
    · rw [if_pos hb] at h
      exact ih h
    · rw [if_neg hb] at h
      simp only [List.head?_cons, Option.some.injEq] at h
      subst h
      exact Bool.not_eq_true _ |>.mp hb

lemma dropWhile_of_head?_false (p : Char → Bool) (l : List Char)
    (h : ∀ a, l.head? = some a → p a = false) : l.dropWhile p = l := by
  cases l with
  | nil => rfl
  | cons b t =>
    have hb := h b rfl
    rw [List.dropWhile_cons, hb]
    simp

lemma dropWhile_idem (p : Char → Bool) (l : List Char) :
    (l.dropWhile p).dropWhile p = l.dropWhile p :=
  dropWhile_of_head?_false p _ (fun a h => dropWhile_head?_false p l a h)

lemma stripEnds_head?_false (p : Char → Bool) (l : List Char) (a : Char)
    (h : (stripEnds p l).head? = some a) : p a = false := by
  unfold stripEnds at h
  rw [List.head?_reverse] at h
  have hdec := List.takeWhile_append_dropWhile (p := p) (l := (l.dropWhile p).reverse)
  have hlast : ((l.dropWhile p).reverse.dropWhile p).getLast? = some a := h
  have h2 : ((l.dropWhile p).reverse).getLast? = some a := by
    calc ((l.dropWhile p).reverse).getLast?
        = (((l.dropWhile p).reverse.takeWhile p) ++
            ((l.dropWhile p).reverse.dropWhile p)).getLast? := by rw [hdec]
      _ = some a := by
          rw [List.getLast?_append]
          rw [hlast]
          rfl
  rw [List.getLast?_reverse] at h2
  exact dropWhile_head?_false p l a h2

lemma stripEnds_idem (p : Char → Bool) (l : List Char) :
    stripEnds p (stripEnds p l) = stripEnds p l := by
  have h1 : (stripEnds p l).dropWhile p = stripEnds p l :=
    dropWhile_of_head?_false p _ (fun a h => stripEnds_head?_false p l a h)
  show ((((stripEnds p l).dropWhile p).reverse).dropWhile p).reverse = stripEnds p l
  rw [h1]
  show ((((l.dropWhile p).reverse.dropWhile p).reverse).reverse.dropWhile p).reverse
      = stripEnds p l
  rw [List.reverse_reverse]
  rw [dropWhile_idem]
  rfl

lemma pyStrip_idem (s : String) : pyStrip (pyStrip s) = pyStrip s := by
  show String.mk (stripEnds pyIsSpace (String.mk (stripEnds pyIsSpace s.toList)).toList)
      = String.mk (stripEnds pyIsSpace s.toList)
  exact congrArg String.mk (stripEnds_idem pyIsSpace s.toList)

lemma pyStripQuotes_idem (s : String) :
    pyStripQuotes (pyStripQuotes s) = pyStripQuotes s := by
  show String.mk (stripEnds isQuoteChar (String.mk (stripEnds isQuoteChar s.toList)).toList)
      = String.mk (stripEnds isQuoteChar s.toList)
  exact congrArg String.mk (stripEnds_idem isQuoteChar s.toList)

lemma normalizeProxy_idem (p : Option String) :
    normalizeProxy (normalizeProxy p) = normalizeProxy p := by
  cases p with
  | none => rfl
  | some q =>
    cases hc : (q != "" && pyStrip q != "") with
    | false =>
        have hstep : normalizeProxy (some q) = none := by
          show (if (q != "" && pyStrip q != "") = true
              then some (pyStrip q) else none) = none
          rw [hc]
          rfl
        rw [hstep]
        rfl
    | true =>
        have h2 := Bool.and_eq_true_iff.mp hc
        have hstep : normalizeProxy (some q) = some (pyStrip q) := by
          show (if (q != "" && pyStrip q != "") = true
              then some (pyStrip q) else none) = some (pyStrip q)
          rw [hc]
          rfl
        rw [hstep]
        have hcond2 : (pyStrip q != "" && pyStrip (pyStrip q) != "") = true := by
          rw [pyStrip_idem, h2.2]
          rfl
        show (if (pyStrip q != "" && pyStrip (pyStrip q) != "") = true
            then some (pyStrip (pyStrip q)) else none) = some (pyStrip q)
        rw [hcond2]
        rw [pyStrip_idem]
        rfl

lemma textBackendNormalize_renorm (b : Option String)
    (h : pyStrip (textBackendNormalize b) = textBackendNormalize b) :
    textBackendNormalize (some (textBackendNormalize b)) = textBackendNormalize b := by
  cases b with
  | none => decide
  | some s =>
    cases hs : (s == "") with
    | true =>
        have hs2 : s = "" := by simpa using hs
        subst hs2
        decide
    | false =>
      cases hcond : ((pyStripQuotes (pyStrip s) == "") ||
          (pyStripQuotes (pyStrip s) == "auto")) with
      | true =>
          have hb1 : textBackendNormalize (some s) = "duckduckgo" := by
            simp [textBackendNormalize, hs, hcond]
          rw [hb1]
          decide
      | false =>
          have hor := Bool.or_eq_false_iff.mp hcond
          have hb1 : textBackendNormalize (some s) = pyStripQuotes (pyStrip s) := by
            simp [textBackendNormalize, hs, hcond, hor.1, hor.2]
          rw [hb1] at h ⊢
          simp [textBackendNormalize, hor.1, h, pyStripQuotes_idem, hcond, hor.2]

lemma pyGet_str (r : SearchResult) (k d : String) (h : allStrFields r = true) :
    ∃ s, pyGet r k (PyVal.str d) = PyVal.str s := by
  cases hf : r.find? (fun kv => kv.1 == k) with
  | none => exact ⟨d, by unfold pyGet; rw [hf]⟩
  | some kv =>
      have hm : kv ∈ r := List.mem_of_find?_eq_some hf
      unfold allStrFields at h
      have hall := List.all_eq_true.mp h kv hm
      cases hv : kv.2 with
      | str s => exact ⟨s, by unfold pyGet; rw [hf]; exact hv⟩
      | none_ => rw [hv] at hall; simp at hall
      | int n => rw [hv] at hall; simp at hall

lemma append_ne_of_length_lt (a b t : String) (h : t.length < a.length) :
    a ++ b ≠ t := by
  intro he
  have hl := congrArg String.length he
  rw [String.length_append] at hl
  omega

lemma append_append_ne_of_length_lt (a b c t : String)
    (h : t.length < a.length + c.length) : a ++ b ++ c ≠ t := by
  intro he
  have hl := congrArg String.length he
  simp only [String.length_append] at hl
  omega

/- ------------------------------------------------------------------ -/
/- Claim theorems                                                     -/
/- ------------------------------------------------------------------ -/

/-- C1: the spec requires a max_results value outside the declared range
1..100 to produce a ValidationError naming the field, with no provider
call.  The handler contains no such check: with max_results 200 — outside
the bounds the tool schema itself declares on lines 96-97 — the handler
still invokes the provider, forwarding 200 unchanged; an in-range value
such as 50 is likewise forwarded unchanged. -/
theorem textSearch_maxResults_forwarded_unchecked :
    handle_text_search "x" "us-en" "moderate" none 200 (some "auto") none =
      TextHandlerAction.providerCall ⟨"x", "us-en", "moderate", none, 200, 1, "duckduckgo"⟩ ∧
    handle_text_search "x" "us-en" "moderate" none 50 (some "auto") none =
      TextHandlerAction.providerCall ⟨"x", "us-en", "moderate", none, 50, 1, "duckduckgo"⟩ ∧
    decide (textSearchMaxResultsMinimum ≤ (200 : Int) ∧
      (200 : Int) ≤ textSearchMaxResultsMaximum) = false ∧
    decide (textSearchMaxResultsMinimum ≤ (50 : Int) ∧
      (50 : Int) ≤ textSearchMaxResultsMaximum) = true := by
  refine ⟨by decide, by decide, by decide, by decide⟩

/-- C2 counterexample: after the shared client is cached by a no-proxy
get_ddgs_instance call, a subsequent no-proxy text search request does not
reuse it: the text handler constructs a fresh client of its own (line 330
of src/server.py), refuting the claim that every subsequent no-proxy
request reuses the shared cached client.  The third conjunct records that
the cache itself is left untouched. -/
theorem noProxy_textSearch_builds_fresh_client :
    (get_ddgs_instance none 10 initState).2.ddgs_instance =
      some (get_ddgs_instance none 10 initState).1 ∧
    decide ((textSearchClient none (get_ddgs_instance none 10 initState).2).1 =
      (get_ddgs_instance none 10 initState).1) = false ∧
    (textSearchClient none (get_ddgs_instance none 10 initState).2).2.ddgs_instance =
      (get_ddgs_instance none 10 initState).2.ddgs_instance := by decide

/-- C2 (amended): the shared cache serves the image, video, news and book
handlers through no-proxy get_ddgs_instance calls — it is built lazily on
the first such call and every later one returns the cached client with the
state unchanged.  A text search request, with or without a proxy, always
builds a private request-scoped client that is distinct from any cached
client and neither reads nor writes the shared cache. -/
theorem client_cache_policy (s : ServerState) (h : WFState s) :
    (∀ p, (textSearchClient p s).2.ddgs_instance = s.ddgs_instance) ∧
    (∀ p c, s.ddgs_instance = some c →
      decide ((textSearchClient p s).1 = c) = false) ∧
    (∀ c, s.ddgs_instance = some c → get_ddgs_instance none 10 s = (c, s)) ∧
    (s.ddgs_instance = none →
      (get_ddgs_instance none 10 s).2.ddgs_instance =
        some (get_ddgs_instance none 10 s).1) ∧
    (∀ p, WFState (textSearchClient p s).2) ∧
    WFState (get_ddgs_instance none 10 s).2 := by
  have h3 : ∀ c, s.ddgs_instance = some c → get_ddgs_instance none 10 s = (c, s) := by
    intro c hc
    unfold get_ddgs_instance
    rw [hc]
    rfl
  have h4 : s.ddgs_instance = none → get_ddgs_instance none 10 s =
      (⟨none, 10, true, s.nextId⟩, ⟨some ⟨none, 10, true, s.nextId⟩, s.nextId + 1⟩) := by
    intro hn
    unfold get_ddgs_instance
    rw [hn]
    rfl
  refine ⟨fun p => rfl, ?_, h3, ?_, ?_, ?_⟩
  · intro p c hc
    apply decide_eq_false
    intro he
    have hcid := congrArg DDGSClient.cid he
    simp only [textSearchClient, mkDDGS] at hcid
    have := h c hc
    omega
  · intro hn
    rw [h4 hn]
  · intro p c hc
    simp only [textSearchClient, mkDDGS] at hc ⊢
    exact Nat.lt_succ_of_lt (h c hc)
  · cases hs : s.ddgs_instance with
    | some c =>
        rw [h3 c hs]
        exact h
    | none =>
        rw [h4 hs]
        intro c hc
        simp only [Option.some.injEq] at hc
        rw [← hc]
        exact Nat.lt_succ_self _

/-- Concrete state with one cached client, used to witness the cache
policy theorem. -/
def cachedClient : DDGSClient := ⟨none, 10, true, 0⟩

/-- State holding cachedClient in the module cache. -/
def cachedState : ServerState := ⟨some cachedClient, 1⟩

/-- Witness for the amended C2 theorem: on a state with a cached client,
a no-proxy get_ddgs_instance call returns the cached client unchanged. -/
theorem client_cache_policy_witness :
    get_ddgs_instance none 10 cachedState = (cachedClient, cachedState) :=
  (client_cache_policy cachedState (fun c hc => by
    simp only [cachedState, cachedClient, Option.some.injEq] at hc
    rw [← hc]
    decide)).2.2.1 cachedClient rfl

/-- C3 counterexample: the news handler does not resolve the auto backend
before the provider call — it forwards the literal auto (which is also not
the concrete backend the text handler resolves to), refuting the claim
that every tool resolves auto to a fixed concrete backend before invoking
the provider. -/
theorem newsSearch_auto_backend_unresolved :
    newsBackendSent (some "auto") = some "auto" ∧
    textBackendNormalize (some "auto") = "duckduckgo" ∧
    decide (newsBackendSent (some "auto") =
      some (textBackendNormalize (some "auto"))) = false := by
  refine ⟨rfl, by decide, by decide⟩

/-- C3 (amended): for text search the backend value auto — also when
absent, null, empty, quoted or surrounded by whitespace — resolves
deterministically to the fixed concrete backend duckduckgo before the
provider is invoked; for news search the backend argument is passed to the
provider unchanged, so resolution of auto is left to the provider
library. -/
theorem backend_auto_resolution :
    textBackendNormalize (some "auto") = "duckduckgo" ∧
    textBackendNormalize none = "duckduckgo" ∧
    textBackendNormalize (some "") = "duckduckgo" ∧
    textBackendNormalize (some (squote ++ "auto" ++ squote)) = "duckduckgo" ∧
    textBackendNormalize (some "  auto  ") = "duckduckgo" ∧
    (∀ b, newsBackendSent b = b) := by
  refine ⟨by decide, by decide, by decide, by decide, by decide, fun b => rfl⟩

/-- C4 counterexample: a video result whose description field is present
but null makes formatting raise — the 200-character slice on line 466 of
src/server.py is applied to None — so the response is produced by the
error path of handle_call_tool, refuting the claim that formatting never
raises on malformed fields. -/
theorem video_null_description_raises :
    formatVideoEntry 1 [("description", PyVal.none_)] =
      Except.error "TypeError: NoneType object is not subscriptable" ∧
    videoSearchRespond (SearchOutcome.ok [[("description", PyVal.none_)]]) =
      "Error executing search: TypeError: NoneType object is not subscriptable" :=
  ⟨rfl, rfl⟩

/-- C4 (amended): formatting returns a text block without raising for
every result whose present fields are strings, and each absent field
degrades to its literal placeholder in every kind; but a present
null-valued field renders as the text None rather than the placeholder,
and a null-valued video description makes formatting raise a TypeError
that is handled by the outer error path. -/
theorem formatting_total_on_string_fields :
    (∀ i r, allStrFields r = true →
      exceptOkB (formatTextEntry i r) = true ∧
      exceptOkB (formatVideoEntry i r) = true) ∧
    formatTextEntry 1 [] = Except.ok "1. No title\n   URL: N/A\n   No description\n" ∧
    formatVideoEntry 1 [] = Except.ok
      "1. **No title**\n   URL: N/A\n   Duration: N/A\n   Publisher: N/A\n   Published: N/A\n   Description: No description...\n" ∧
    formatImageEntry 1 [] =
      "1. **No title**\n   Image: N/A\n   Thumbnail: N/A\n   Source: N/A\n   Dimensions: ?x?\n" ∧
    formatNewsEntry 1 [] =
      "1. **No title**\n   Source: N/A\n   Date: N/A\n   URL: N/A\n   No description\n" ∧
    formatBookEntry 1 [] =
      "1. **No title**\n   Author: N/A\n   Publisher: N/A\n   Info: N/A\n   URL: N/A\n" ∧
    pyStr (pyGet [("title", PyVal.none_)] "title" (PyVal.str "No title")) = "None" ∧
    formatVideoEntry 1 [("description", PyVal.none_)] =
      Except.error "TypeError: NoneType object is not subscriptable" := by
  refine ⟨?_, rfl, rfl, rfl, rfl, rfl, rfl, rfl⟩
  intro i r h
  constructor
  · obtain ⟨s, hs⟩ := pyGet_str r "href" "N/A" h
    unfold formatTextEntry
    rw [hs]
    rfl
  · obtain ⟨s, hs⟩ := pyGet_str r "description" "No description" h
    unfold formatVideoEntry
    rw [hs]
    rfl

/-- Witness for the amended C4 theorem at a concrete all-string result. -/
theorem formatting_total_on_string_fields_witness :
    exceptOkB (formatTextEntry 1 [("href", PyVal.str "example.com/x")]) = true ∧
    exceptOkB (formatVideoEntry 1 [("description", PyVal.str "a clip")]) = true :=
  ⟨(formatting_total_on_string_fields.1 1 [("href", PyVal.str "example.com/x")] rfl).1,
   (formatting_total_on_string_fields.1 1 [("description", PyVal.str "a clip")] rfl).2⟩

/-- C5 counterexample: an empty provider URL is not rewritten — the guard
on line 359 of src/server.py skips falsy URLs — so the claim that every
schemeless URL gets the https scheme prepended fails at the empty
string. -/
theorem url_rewrite_skips_empty_href :
    normUrl "" = "" ∧
    decide (normUrl "" = "https://" ++ "") = false := by decide

/-- C5 (amended): for text results, a URL starting with the http or https
scheme is rendered unchanged; a nonempty URL different from the literal
N-slash-A placeholder and lacking those schemes is rendered with the https
scheme prepended — with only a colon added when it already starts with two
slashes, and with scheme plus two slashes otherwise. -/
theorem url_scheme_rewrite :
    (∀ u : String, pyStartsWith u "http://" = true → normUrl u = u) ∧
    (∀ u : String, pyStartsWith u "https://" = true → normUrl u = u) ∧
    (∀ u : String, u ≠ "" → u ≠ "N/A" → pyStartsWith u "http://" = false →
      pyStartsWith u "https://" = false → pyStartsWith u "//" = true →
      normUrl u = "https:" ++ u) ∧
    (∀ u : String, u ≠ "" → u ≠ "N/A" → pyStartsWith u "http://" = false →
      pyStartsWith u "https://" = false → pyStartsWith u "//" = false →
      normUrl u = "https://" ++ u) := by
  refine ⟨?_, ?_, ?_, ?_⟩
  · intro u h1
    simp [normUrl, h1]
  · intro u h1
    simp [normUrl, h1]
  · intro u h1 h2 h3 h4 h5
    have b1 : (u != "") = true := bne_iff_ne.mpr h1
    have b2 : (u != "N/A") = true := bne_iff_ne.mpr h2
    simp [normUrl, b1, b2, h3, h4, h5]
  · intro u h1 h2 h3 h4 h5
    have b1 : (u != "") = true := bne_iff_ne.mpr h1
    have b2 : (u != "N/A") = true := bne_iff_ne.mpr h2
    simp [normUrl, b1, b2, h3, h4, h5]

/-- Witness for the amended C5 theorem at the three URLs named by the
spec. -/
theorem url_scheme_rewrite_witness :
    normUrl "https://example.com/x" = "https://example.com/x" ∧
    normUrl "//example.com/x" = "https:" ++ "//example.com/x" ∧
    normUrl "example.com/x" = "https://" ++ "example.com/x" :=
  ⟨url_scheme_rewrite.2.1 "https://example.com/x" (by decide),
   url_scheme_rewrite.2.2.1 "//example.com/x" (by decide) (by decide) (by decide)
     (by decide) (by decide),
   url_scheme_rewrite.2.2.2 "example.com/x" (by decide) (by decide) (by decide)
     (by decide) (by decide)⟩

/-- C6: for every kind, an empty provider result sequence yields the
literal no-results message of that kind — exactly No images found. for
image search — produced in the success branch, and no error response of
the pipeline ever equals that literal, whatever message the provider
exception carries. -/
theorem empty_results_literal_messages :
    textSearchRespond (SearchOutcome.ok []) = "No results found." ∧
    imageSearchRespond (SearchOutcome.ok []) = "No images found." ∧
    videoSearchRespond (SearchOutcome.ok []) = "No videos found." ∧
    newsSearchRespond (SearchOutcome.ok []) = "No news found." ∧
    bookSearchRespond (SearchOutcome.ok []) = "No books found." ∧
    (∀ e, (textSearchRespond (SearchOutcome.err e) == "No results found.") = false) ∧
    (∀ e, (imageSearchRespond (SearchOutcome.err e) == "No images found.") = false) ∧
    (∀ e, (videoSearchRespond (SearchOutcome.err e) == "No videos found.") = false) ∧
    (∀ e, (newsSearchRespond (SearchOutcome.err e) == "No news found.") = false) ∧
    (∀ e, (bookSearchRespond (SearchOutcome.err e) == "No books found.") = false) := by
  refine ⟨rfl, rfl, rfl, rfl, rfl, ?_, ?_, ?_, ?_, ?_⟩
  · intro e
    rw [beq_eq_false_iff_ne]
    show "Search failed: " ++ e ++ "\nTry a simpler query or different parameters."
        ≠ "No results found."
    exact append_append_ne_of_length_lt _ _ _ _ (by decide)
  · intro e
    rw [beq_eq_false_iff_ne]
    show "Error executing search: " ++ e ≠ "No images found."
    exact append_ne_of_length_lt _ _ _ (by decide)
  · intro e
    rw [beq_eq_false_iff_ne]
    show "Error executing search: " ++ e ≠ "No videos found."
    exact append_ne_of_length_lt _ _ _ (by decide)
  · intro e
    rw [beq_eq_false_iff_ne]
    show "Error executing search: " ++ e ≠ "No news found."
    exact append_ne_of_length_lt _ _ _ (by decide)
  · intro e
    rw [beq_eq_false_iff_ne]
    show "Error executing search: " ++ e ≠ "No books found."
    exact append_ne_of_length_lt _ _ _ (by decide)

/-- C7: an invocation whose name is not one of the five registered tool
names is answered with the Unknown tool error message as exactly one text
payload, with no delegation to any handler — so no argument normalization
and no provider operation happens for it. -/
theorem unknown_tool_single_error_response (name : String) (o : SearchOutcome)
    (h : name ∉ toolNames) :
    handle_call_tool name o =
      ⟨["Error executing search: Unknown tool: " ++ name], none⟩ ∧
    (handle_call_tool name o).response.length = 1 := by
  simp only [toolNames, List.mem_cons, List.mem_nil_iff, or_false, not_or] at h
  obtain ⟨h1, h2, h3, h4, h5⟩ := h
  have c1 : (name == "ddgs_text_search") = false := beq_eq_false_iff_ne.mpr h1
  have c2 : (name == "ddgs_image_search") = false := beq_eq_false_iff_ne.mpr h2
  have c3 : (name == "ddgs_video_search") = false := beq_eq_false_iff_ne.mpr h3
  have c4 : (name == "ddgs_news_search") = false := beq_eq_false_iff_ne.mpr h4
  have c5 : (name == "ddgs_book_search") = false := beq_eq_false_iff_ne.mpr h5
  have he : handle_call_tool name o =
      ⟨["Error executing search: Unknown tool: " ++ name], none⟩ := by
    unfold handle_call_tool
    rw [c1, c2, c3, c4, c5]
    rfl
  refine ⟨he, ?_⟩
  rw [he]
  rfl


/-- Witness for the C7 theorem at a concrete unregistered name. -/
theorem unknown_tool_single_error_response_witness :
    handle_call_tool "ddgs_bogus" (SearchOutcome.ok []) =
      ⟨["Error executing search: Unknown tool: " ++ "ddgs_bogus"], none⟩ :=
  (unknown_tool_single_error_response "ddgs_bogus" (SearchOutcome.ok [])
    (by decide)).1

/-- C8 counterexample: normalization is not idempotent.  A backend written
as a quoted string with a trailing space inside the quotes normalizes to a
value that still carries that space — the whitespace trim runs before the
quote strip — and a second normalization removes it, so re-normalizing an
already-normalized request changes it. -/
theorem normalize_backend_not_idempotent :
    (normalizeText "q" "us-en" "moderate" none 10
      (some (squote ++ "x " ++ squote)) none).backend = "x " ∧
    (renormalizeText (normalizeText "q" "us-en" "moderate" none 10
      (some (squote ++ "x " ++ squote)) none)).backend = "x" ∧
    decide (renormalizeText (normalizeText "q" "us-en" "moderate" none 10
        (some (squote ++ "x " ++ squote)) none) =
      normalizeText "q" "us-en" "moderate" none 10
        (some (squote ++ "x " ++ squote)) none) = false := by decide

/-- C8 (amended): normalization is idempotent on every request whose
once-normalized backend carries no surrounding whitespace — in particular
whenever the raw backend has no whitespace directly inside surrounding
quotes; query, region, safesearch, timelimit and max_results pass through
untouched and the proxy cleanup is idempotent unconditionally. -/
theorem normalize_idempotent_on_trimmed_backend
    (query region safesearch : String) (timelimit : Option String)
    (max_results : Int) (backend proxy : Option String)
    (h : pyStrip (normalizeText query region safesearch timelimit max_results
        backend proxy).backend =
      (normalizeText query region safesearch timelimit max_results
        backend proxy).backend) :
    renormalizeText (normalizeText query region safesearch timelimit max_results
        backend proxy) =
      normalizeText query region safesearch timelimit max_results backend proxy := by
  simp only [normalizeText] at h
  simp only [renormalizeText, normalizeText]
  rw [textBackendNormalize_renorm backend h, normalizeProxy_idem]

/-- Witness for the amended C8 theorem on the spec scenario arguments. -/
theorem normalize_idempotent_on_trimmed_backend_witness :
    renormalizeText (normalizeText "rust programming" "us-en" "moderate" none 2
        (some "auto") none) =
      normalizeText "rust programming" "us-en" "moderate" none 2 (some "auto") none :=
  normalize_idempotent_on_trimmed_backend "rust programming" "us-en" "moderate"
    none 2 (some "auto") none (by decide)

/-- C9 counterexample: the blocking provider call of the image handler
runs directly on the event loop — handle_image_search awaits nothing and
calls ddgs.images inline on line 398 of src/server.py — refuting the claim
that every tool dispatches the provider call to a separate worker. -/
theorem image_provider_call_on_event_loop :
    providerCallContext ToolKind.image = ExecContext.eventLoop ∧
    decide (providerCallContext ToolKind.image = ExecContext.workerThread) = false := by
  decide

/-- C9 (amended): only the text search handler dispatches its blocking
provider call to a worker thread via asyncio.to_thread; the image, video,
news and book handlers invoke the provider directly inside the async
handler, so those calls run on the request-accepting event loop and block
it for their duration. -/
theorem provider_call_contexts :
    providerCallContext ToolKind.text = ExecContext.workerThread ∧
    providerCallContext ToolKind.image = ExecContext.eventLoop ∧
    providerCallContext ToolKind.video = ExecContext.eventLoop ∧
    providerCallContext ToolKind.news = ExecContext.eventLoop ∧
    providerCallContext ToolKind.book = ExecContext.eventLoop := by decide

/-- C10: the URL scheme rewrite of text formatting applies only to a
nonempty URL different from the N-slash-A placeholder: a result with no
href field renders the URL line with the bare placeholder — never with a
scheme glued onto it — a result whose href is the empty string renders it
unmodified, and a literal placeholder value is also left unmodified. -/
theorem href_guard_renders_placeholder_unmodified :
    formatTextEntry 1 [] = Except.ok "1. No title\n   URL: N/A\n   No description\n" ∧
    formatTextEntry 1 [("href", PyVal.str "")] =
      Except.ok "1. No title\n   URL: \n   No description\n" ∧
    textUrlValue (PyVal.str "") = Except.ok (PyVal.str "") ∧
    normUrl "" = "" ∧
    normUrl "N/A" = "N/A" :=
  ⟨rfl, rfl, rfl, rfl, rfl⟩
